import Mathlib

set_option maxRecDepth 16384

/-!
Shallow embedding of the Flowgen generation pipeline
(`app/services/llm_service.py`, `app/services/render_service.py`,
`app/services/plantuml_service.py`, `app/services/diagram_service.py`,
`app/utils/hash_utils.py`, `app/repository/diagram_repository.py`).

Python strings are modelled as Lean `String` / `List Char` (ASCII semantics for
case folding and `\w`/`\s` character classes, which is what every string in the
code paths below uses).  Python exceptions become an explicit `PyExc` value in
an `Except` result.  External-library calls (the LangChain provider, zlib,
graphviz, the database session) are parameters of the embedded functions.
-/

namespace Flowgen

/-! ## Python string primitives (ASCII model) -/

/-- Python `\s` / `str.strip` whitespace class (ASCII): space, tab, newline,
carriage return, vertical tab, form feed. -/
def pyIsSpace (c : Char) : Bool :=
  c = ' ' || c = '\t' || c = '\n' || c = '\r' || c = '\x0b' || c = '\x0c'

/-- Python `str.strip()` with no argument, on a list of characters. -/
def pyStrip (cs : List Char) : List Char :=
  ((cs.dropWhile pyIsSpace).reverse.dropWhile pyIsSpace).reverse

/-- Python `str.strip()` on a `String`. -/
def pyStripStr (s : String) : String :=
  String.mk (pyStrip s.data)

/-- ASCII lower-casing of one character (Python `str.lower` restricted to ASCII). -/
def lowerChar (c : Char) : Char :=
  if 'A' ≤ c && c ≤ 'Z' then Char.ofNat (c.toNat + 32) else c

/-- ASCII upper-casing of one character. -/
def upperChar (c : Char) : Char :=
  if 'a' ≤ c && c ≤ 'z' then Char.ofNat (c.toNat - 32) else c

/-- Python `str.lower()` on a list of characters (ASCII model). -/
def lowerList (cs : List Char) : List Char :=
  cs.map lowerChar

/-- Python `str.lower()` on a `String` (ASCII model). -/
def lowerStr (s : String) : String :=
  String.mk (lowerList s.data)

/-- Does `cs` start with the literal pattern `p`? (Python `str.startswith`.) -/
def startsList : List Char → List Char → Bool
  | [], _ => true
  | _ :: _, [] => false
  | p :: ps, c :: cs => p = c && startsList ps cs

/-- Does `cs` end with the literal pattern `p`? (Python `str.endswith`.) -/
def endsList (p cs : List Char) : Bool :=
  startsList p.reverse cs.reverse

/-- Case-insensitive `startsList` (ASCII case folding, as in `re.IGNORECASE`). -/
def startsListCI (p cs : List Char) : Bool :=
  startsList (lowerList p) (lowerList cs)

/-- Does `cs` contain `p` as a contiguous substring? (Python `in` on strings.) -/
def containsSub (p : List Char) : List Char → Bool
  | [] => startsList p []
  | c :: cs => startsList p (c :: cs) || containsSub p cs

/-- Case-insensitive substring containment (`re.search` of a literal pattern
with `re.IGNORECASE`). -/
def containsSubCI (p cs : List Char) : Bool :=
  containsSub (lowerList p) (lowerList cs)

/-- Python regex `\w` word-character class (ASCII): letters, digits, underscore. -/
def isWordChar (c : Char) : Bool :=
  c.isAlphanum || c = '_'

/-- Word boundary `\b` holds after a matched token iff the rest of the text is
empty or begins with a non-word character. -/
def boundAfter : List Char → Bool
  | [] => true
  | c :: _ => !isWordChar c

/-- Does the word-bounded, case-insensitive token `pat` occur at the head of
`cs`, where `prev` is the character just before `cs` (none at text start)? -/
def wordTokenHere (pat : List Char) (prev : Option Char) (cs : List Char) : Bool :=
  (match prev with
   | none => true
   | some p => !isWordChar p)
  && startsListCI pat cs && boundAfter (cs.drop pat.length)

/-- Scan `cs` for any of the word-bounded tokens in `pats` (case-insensitive);
`prev` is the character before the scan position.  This models
`re.search(r"\b(tok1|tok2)\b", text, re.IGNORECASE) is not None`. -/
def hasWordToken (pats : List (List Char)) : Option Char → List Char → Bool
  | _, [] => false
  | prev, c :: rest =>
    pats.any (fun p => wordTokenHere p prev (c :: rest)) || hasWordToken pats (some c) rest

/-! ## Code-fence regex model

`_extract_dot` / `_extract_plantuml` / `_extract_mermaid` all use a pattern of
the shape `r"<fence>(?:tag1|tag2)?\s*\n(.*?)\n<fence>"` with `re.DOTALL`,
where `<fence>` is three backticks.  We model Python's leftmost search with
backtracking directly: alternatives for the optional tag are tried in pattern
order, `\s*` is greedy, and the body group `(.*?)` is lazy. -/

/-- The three-backtick fence delimiter. -/
def fenceMark : List Char := ['\x60', '\x60', '\x60']

/-- Closing delimiter `\n` followed by three backticks. -/
def fenceClose : List Char := '\n' :: fenceMark

/-- Lazy body group: the shortest prefix of `cs` such that the remainder begins
with `fenceClose`; `none` when no closing fence follows. -/
def bodyEnd : List Char → Option (List Char)
  | [] => none
  | c :: rest =>
    if startsList fenceClose (c :: rest) then some []
    else (bodyEnd rest).map (fun b => c :: b)

/-- Remainders after matching `\s*\n` against a prefix of `cs`, in the greedy
(backtracking) order the regex engine tries them: longest `\s*` first. -/
def wsNlSplits : List Char → List (List Char)
  | [] => []
  | c :: rest =>
    if pyIsSpace c then wsNlSplits rest ++ (if c = '\n' then [rest] else []) else []

/-- Remainders after the optional language tag, in pattern order: each literal
tag that matches, then the empty alternative. -/
def tagAlts (tags : List (List Char)) (cs : List Char) : List (List Char) :=
  (tags.filterMap fun t => if startsList t cs then some (cs.drop t.length) else none) ++ [cs]

/-- Attempt the fence pattern with the opening backticks already consumed;
returns the body group on success. -/
def tryFenceAt (tags : List (List Char)) (cs : List Char) : Option (List Char) :=
  (tagAlts tags cs).findSome? fun afterTag =>
    (wsNlSplits afterTag).findSome? fun afterNl => bodyEnd afterNl

/-- Leftmost search for the fence pattern (Python `re.search`): returns the
body group of the first position where the full pattern matches. -/
def fenceSearch (tags : List (List Char)) : List Char → Option (List Char)
  | [] => none
  | c :: rest =>
    if startsList fenceMark (c :: rest) then
      match tryFenceAt tags ((c :: rest).drop 3) with
      | some body => some body
      | none => fenceSearch tags rest
    else fenceSearch tags rest

/-! ## Exceptions (`app/core/exceptions.py`) -/

/-- The exception classes raised on the embedded code paths.  Each
`DiagramGPTException` subclass carries `message` (and an optional `detail`);
`str(e)` is the message. -/
inductive PyExc where
  | llmError (message : String) (detail : Option String)
  | validationError (message : String)
  | renderError (message : String)
  | diagramGenerationError (message : String) (detail : Option String)
  | valueError (message : String)
  | otherError (message : String)
deriving DecidableEq

/-- Python `str(e)`: for `DiagramGPTException` subclasses this is the message
(their `__init__` passes `message` to `Exception.__init__`). -/
def excStr : PyExc → String
  | .llmError m _ => m
  | .validationError m => m
  | .renderError m => m
  | .diagramGenerationError m _ => m
  | .valueError m => m
  | .otherError m => m

/-- Is the exception an instance of class `ValidationError`? -/
def PyExc.isValidationError : PyExc → Bool
  | .validationError _ => true
  | _ => false

/-- Is the exception an instance of class `LLMError`? -/
def PyExc.isLLMError : PyExc → Bool
  | .llmError _ _ => true
  | _ => false

/-! ## Code extractors (`LLMService._extract_dot` / `_extract_plantuml` /
`_extract_mermaid`) -/

/-- Tags of the graphviz fence pattern `(?:dot|graphviz)?`. -/
def dotFenceTags : List (List Char) := ["dot".data, "graphviz".data]

/-- Tags of the plantuml fence pattern `(?:plantuml)?`. -/
def plantumlFenceTags : List (List Char) := ["plantuml".data]

/-- Tags of the mermaid fence pattern `(?:mermaid)?`. -/
def mermaidFenceTags : List (List Char) := ["mermaid".data]

/-- The check `re.search(r'\b(di)?graph\b', code, re.IGNORECASE)`: an
occurrence of the word-bounded token `digraph` or `graph`. -/
def containsGraphDecl (cs : List Char) : Bool :=
  hasWordToken ["digraph".data, "graph".data] none cs

/-- The check `re.search(r'\bgantt\b', code, re.IGNORECASE)`. -/
def containsGanttDecl (cs : List Char) : Bool :=
  hasWordToken ["gantt".data] none cs

/-- The check `re.search(r'@start(wbs|uml)', code, re.IGNORECASE)`: a
case-insensitive substring occurrence (no word boundaries in this pattern). -/
def containsStartDecl (cs : List Char) : Bool :=
  containsSubCI "@startwbs".data cs || containsSubCI "@startuml".data cs

/-- Shared first step of the three extractors: the stripped fence body when
the fence pattern matches, else the whole response stripped. -/
def fenceOrWhole (tags : List (List Char)) (llmResponse : String) : List Char :=
  match fenceSearch tags llmResponse.data with
  | some body => pyStrip body
  | none => pyStrip llmResponse.data

/-- `LLMService._extract_dot`: take the fence body if the fence pattern
matches, else the whole response; strip; require a `graph`/`digraph` token. -/
def extractDot (llmResponse : String) : Except PyExc String :=
  let dotCode : List Char := fenceOrWhole dotFenceTags llmResponse
  if containsGraphDecl dotCode then .ok (String.mk dotCode)
  else .error (.llmError "Invalid DOT code: must contain 'graph' or 'digraph' declaration" none)

/-- First half of the "ensure proper tags" step of `_extract_plantuml`:
prepend `"@startwbs\n"` when no start marker is present. -/
def prependStart (code0 : List Char) : List Char :=
  if startsList "@startwbs".data code0 || startsList "@startuml".data code0 then code0
  else "@startwbs\n".data ++ code0

/-- Second half of the "ensure proper tags" step: append `"\n@endwbs"` when
no end marker is present. -/
def wrapEnd (code1 : List Char) : List Char :=
  if endsList "@endwbs".data code1 || endsList "@enduml".data code1 then code1
  else code1 ++ "\n@endwbs".data

/-- The "ensure proper tags" step of `_extract_plantuml`. -/
def wrapTags (code0 : List Char) : List Char :=
  wrapEnd (prependStart code0)

/-- `LLMService._extract_plantuml`: fence body or whole response, stripped;
auto-wrap with `@startwbs`/`@endwbs` when the start/end markers are missing;
require an `@start(wbs|uml)` occurrence. -/
def extractPlantuml (llmResponse : String) : Except PyExc String :=
  let code2 : List Char := wrapTags (fenceOrWhole plantumlFenceTags llmResponse)
  if containsStartDecl code2 then .ok (String.mk code2)
  else .error (.llmError "Invalid PlantUML code: must contain '@startwbs' or '@startuml' declaration" none)

/-- `LLMService._extract_mermaid`: fence body or whole response, stripped;
require a word-bounded `gantt` token. -/
def extractMermaid (llmResponse : String) : Except PyExc String :=
  let mermaidCode : List Char := fenceOrWhole mermaidFenceTags llmResponse
  if containsGanttDecl mermaidCode then .ok (String.mk mermaidCode)
  else .error (.llmError "Invalid Mermaid code: must contain 'gantt' declaration" none)

/-! ## LLM client (`LLMService.generate_dot_code` / `generate_wbs_code` /
`generate_gantt_code` and `_call_llm_with_prompt`)

Live mode is parameterised by a `backend : Nat → Except String (String × Option Nat)`
giving, per attempt index, either a raised provider exception (its `str`) or the
response content (a string) together with the `total_tokens` metadata.  The
embedding returns the trace of provider calls made and backoff sleeps performed
alongside the result. -/

/-- Number of provider calls made and backoff sleeps (in seconds, in order)
performed by one generation call. -/
structure GenTrace where
  calls : Nat
  sleeps : List Nat
deriving DecidableEq

/-- `LLMService._call_llm_with_prompt`: invoke the provider; re-raise any
exception (including its own empty-response `LLMError`s, which the enclosing
`except Exception` also catches) as `LLMError("LLM API call failed: " + str(e))`. -/
def callLLMWithPrompt (backend : Nat → Except String (String × Option Nat))
    (attempt : Nat) : Except PyExc (String × Option Nat) :=
  match backend attempt with
  | .error msg => .error (.llmError ("LLM API call failed: " ++ msg) none)
  | .ok (content, tokens) =>
    if content = "" then
      .error (.llmError "LLM API call failed: Empty response from LLM" none)
    else
      let c := pyStripStr content
      if c = "" then
        .error (.llmError "LLM API call failed: Empty response from LLM after normalization" none)
      else .ok (c, tokens)

/-- One iteration body of the retry loop: provider call followed by the
per-kind extractor, either of which may raise. -/
def attemptEval (backend : Nat → Except String (String × Option Nat))
    (extract : String → Except PyExc String) (attempt : Nat) :
    Except PyExc (String × Option Nat) :=
  match callLLMWithPrompt backend attempt with
  | .error e => .error e
  | .ok (content, tokens) =>
    match extract content with
    | .error e => .error e
    | .ok code => .ok (code, tokens)

/-- The `for attempt in range(max_retries)` retry loop shared by the three
generators: on an exception with attempts remaining, sleep `2 ** attempt`
seconds and retry; on the final attempt, raise `LLMError(failMsg, detail=str(e))`.
`fuel` is the number of loop iterations left (initially `max_retries`); the
fuel-exhausted case is the defensive raise after the loop. -/
def genLoop (backend : Nat → Except String (String × Option Nat))
    (extract : String → Except PyExc String) (maxRetries : Nat)
    (failMsg defensiveMsg defensiveDetail : String) :
    Nat → Nat → Nat → List Nat → Except PyExc (String × Option Nat) × GenTrace
  | _, 0, calls, sleeps =>
    (.error (.llmError defensiveMsg (some defensiveDetail)), ⟨calls, sleeps⟩)
  | attempt, fuel + 1, calls, sleeps =>
    match attemptEval backend extract attempt with
    | .ok res => (.ok res, ⟨calls + 1, sleeps⟩)
    | .error e =>
      if attempt < maxRetries - 1 then
        genLoop backend extract maxRetries failMsg defensiveMsg defensiveDetail
          (attempt + 1) fuel (calls + 1) (sleeps ++ [2 ^ attempt])
      else
        (.error (.llmError failMsg (some (excStr e))), ⟨calls + 1, sleeps⟩)

/-- Live-mode body of `generate_dot_code` (the branch taken when `_use_llm`). -/
def generateDotLive (backend : Nat → Except String (String × Option Nat))
    (maxRetries : Nat) : Except PyExc (String × Option Nat) × GenTrace :=
  genLoop backend extractDot maxRetries
    ("Failed to generate DOT code after " ++ toString maxRetries ++ " attempts")
    "LLM generation ended unexpectedly: no result produced"
    "Internal error in generate_dot_code control flow"
    0 maxRetries 0 []

/-- Live-mode body of `generate_wbs_code`. -/
def generateWbsLive (backend : Nat → Except String (String × Option Nat))
    (maxRetries : Nat) : Except PyExc (String × Option Nat) × GenTrace :=
  genLoop backend extractPlantuml maxRetries
    ("Failed to generate PlantUML WBS code after " ++ toString maxRetries ++ " attempts")
    "WBS generation ended unexpectedly: no result produced"
    "Internal error in generate_wbs_code control flow"
    0 maxRetries 0 []

/-- Live-mode body of `generate_gantt_code`. -/
def generateGanttLive (backend : Nat → Except String (String × Option Nat))
    (maxRetries : Nat) : Except PyExc (String × Option Nat) × GenTrace :=
  genLoop backend extractMermaid maxRetries
    ("Failed to generate Mermaid Gantt code after " ++ toString maxRetries ++ " attempts")
    "Gantt generation ended unexpectedly: no result produced"
    "Internal error in generate_gantt_code control flow"
    0 maxRetries 0 []

/-! ## Fallback mock generators (`_fallback_mock`, `_fallback_mock_wbs`,
`_fallback_mock_gantt`) -/

/-- Python `str.split()` with no argument: split on whitespace runs,
discarding empty pieces. -/
def pySplitWSAux (cur : List Char) : List Char → List (List Char)
  | [] => if cur = [] then [] else [cur.reverse]
  | c :: rest =>
    if pyIsSpace c then
      if cur = [] then pySplitWSAux [] rest else cur.reverse :: pySplitWSAux [] rest
    else pySplitWSAux (c :: cur) rest

/-- Python `str.split()` with no argument. -/
def pySplitWS (cs : List Char) : List (List Char) :=
  pySplitWSAux [] cs

/-- Python `str.title()` (ASCII model): upper-case a letter that follows a
non-letter, lower-case a letter that follows a letter. -/
def pyTitleAux : Bool → List Char → List Char
  | _, [] => []
  | prevAlpha, c :: rest =>
    (if c.isAlpha then (if prevAlpha then lowerChar c else upperChar c) else c)
      :: pyTitleAux c.isAlpha rest

/-- Python `str.title()` on a list of characters. -/
def pyTitle (cs : List Char) : List Char :=
  pyTitleAux false cs

/-- The `project_name` computed by the WBS and Gantt fallbacks:
`" ".join(prompt.split()[:3]).title() if words else "Example Project"`. -/
def projectName (prompt : String) : String :=
  let words := (pySplitWS prompt.data).take 3
  if words.isEmpty then "Example Project"
  else String.mk (pyTitle (List.intercalate [' '] words))

/-- Keywords whose presence in the lower-cased prompt selects the directed
fallback graph. -/
def directedKeywords : List String :=
  ["flow", "process", "step", "sequence", "hierarchy"]

/-- The directed fallback DOT graph (verbatim from the source; `\x7b`/`\x7d`
are the literal braces). -/
def fallbackDirected : String :=
  "digraph example \x7b\n    rankdir=TB;\n    node [shape=box, style=rounded];\n    \n    start [label=\"Start\", shape=ellipse];\n    step1 [label=\"Process Step\"];\n    step2 [label=\"Decision\", shape=diamond];\n    end [label=\"End\", shape=ellipse];\n    \n    start -> step1;\n    step1 -> step2;\n    step2 -> end [label=\"Complete\"];\n\x7d"

/-- The undirected fallback DOT graph (verbatim from the source). -/
def fallbackUndirected : String :=
  "graph example \x7b\n    node [shape=circle];\n    \n    A [label=\"Node A\"];\n    B [label=\"Node B\"];\n    C [label=\"Node C\"];\n    D [label=\"Node D\"];\n    \n    A -- B;\n    B -- C;\n    C -- D;\n    D -- A;\n    A -- C;\n\x7d"

/-- `LLMService._fallback_mock`: pick the directed example when any keyword
occurs in the lower-cased prompt, else the undirected example. -/
def fallbackMock (prompt : String) : String :=
  if directedKeywords.any (fun w => containsSub w.data (lowerList prompt.data)) then
    fallbackDirected
  else fallbackUndirected

/-- `LLMService._fallback_mock_wbs` (verbatim template around `project_name`). -/
def fallbackMockWbs (prompt : String) : String :=
  "@startwbs\n* " ++ projectName prompt ++
    "\n** Planning Phase\n*** Requirements Gathering\n*** Resource Allocation\n** Execution Phase\n*** Task Development\n*** Quality Assurance\n** Completion Phase\n*** Testing\n*** Deployment\n@endwbs"

/-- `LLMService._fallback_mock_gantt` (verbatim template around `project_name`). -/
def fallbackMockGantt (prompt : String) : String :=
  "gantt\n    title " ++ projectName prompt ++
    "\n    dateFormat YYYY-MM-DD\n    axisFormat %b %d\n    \n    section Planning\n    Requirements :done, req, 2025-01-01, 5d\n    Design :active, design, after req, 7d\n    \n    section Development\n    Backend :dev1, after design, 10d\n    Frontend :dev2, after design, 8d\n    \n    section Testing\n    QA Testing :crit, test, after dev1 dev2, 5d\n    \n    section Deployment\n    Deploy :milestone, after test, 0d"

/-- `LLMService.generate_dot_code`: fallback mode returns the mock with
`tokens_used = None` and no provider call; live mode runs the retry loop. -/
def generateDotCode (useLLM : Bool) (backend : Nat → Except String (String × Option Nat))
    (prompt : String) (maxRetries : Nat) :
    Except PyExc (String × Option Nat) × GenTrace :=
  if useLLM then generateDotLive backend maxRetries
  else (.ok (fallbackMock prompt, none), ⟨0, []⟩)

/-- `LLMService.generate_wbs_code` with the fallback dispatch. -/
def generateWbsCode (useLLM : Bool) (backend : Nat → Except String (String × Option Nat))
    (prompt : String) (maxRetries : Nat) :
    Except PyExc (String × Option Nat) × GenTrace :=
  if useLLM then generateWbsLive backend maxRetries
  else (.ok (fallbackMockWbs prompt, none), ⟨0, []⟩)

/-- `LLMService.generate_gantt_code` with the fallback dispatch. -/
def generateGanttCode (useLLM : Bool) (backend : Nat → Except String (String × Option Nat))
    (prompt : String) (maxRetries : Nat) :
    Except PyExc (String × Option Nat) × GenTrace :=
  if useLLM then generateGanttLive backend maxRetries
  else (.ok (fallbackMockGantt prompt, none), ⟨0, []⟩)

/-! ## Render service (`app/services/render_service.py`) -/

/-- The engine allow-list of `RenderService.render_to_bytes`. -/
def validEngines : List String := ["dot", "neato", "fdp", "sfdp", "twopi", "circo"]

/-- `RenderService.validate_dot_syntax`: length, leading-keyword, balanced-brace
and brace-presence checks on the stripped DOT source, in that order. -/
def validateDotSyntax (dot : String) : Except PyExc Unit :=
  let d := pyStrip dot.data
  if d.length < 10 then
    .error (.validationError "DOT code too short")
  else if !(startsList "graph".data d || startsList "digraph".data d ||
      startsList "strict graph".data d || startsList "strict digraph".data d) then
    .error (.validationError "DOT code must start with 'graph' or 'digraph'")
  else if d.count '\x7b' ≠ d.count '\x7d' then
    .error (.validationError "Unbalanced braces in DOT code")
  else if !(d.contains '\x7b' && d.contains '\x7d') then
    .error (.validationError "DOT code must contain graph body in braces")
  else .ok ()

/-- `RenderService.render_to_bytes`, parameterised by the graphviz backend
(`graphviz.Source(...).pipe`), which either returns image bytes or raises
(exception `str` given as the error value): format check, engine check, DOT
validation, then the backend call with its exceptions wrapped as `RenderError`. -/
def renderToBytes (backendPipe : String → String → String → Except String (List Nat))
    (dot fmt engine : String) : Except PyExc (List Nat) :=
  if !(fmt = "svg" || fmt = "png") then
    .error (.validationError ("Invalid format: " ++ fmt ++ ". Must be 'svg' or 'png'"))
  else if !(validEngines.contains engine) then
    .error (.validationError ("Invalid engine: " ++ engine ++
      ". Must be one of ['dot', 'neato', 'fdp', 'sfdp', 'twopi', 'circo']"))
  else
    match validateDotSyntax dot with
    | .error e => .error e
    | .ok _ =>
      match backendPipe dot fmt engine with
      | .ok bytes => .ok bytes
      | .error msg => .error (.renderError ("Failed to render DOT code: " ++ msg))

/-! ## Prompt fingerprint (`app/utils/hash_utils.py`)

`hash_prompt` normalizes its inputs, joins them with `|`, UTF-8 encodes the
result and takes the SHA-256 hex digest.  SHA-256 (FIPS 180-4) is embedded
below over `Nat` with explicit `% 2^32` arithmetic. -/

/-- UTF-8 encoding of one character (code point) as a byte list. -/
def utf8EncodeChar (c : Char) : List Nat :=
  let n := c.toNat
  if n < 0x80 then [n]
  else if n < 0x800 then [0xC0 + n / 64, 0x80 + n % 64]
  else if n < 0x10000 then [0xE0 + n / 4096, 0x80 + n / 64 % 64, 0x80 + n % 64]
  else [0xF0 + n / 262144, 0x80 + n / 4096 % 64, 0x80 + n / 64 % 64, 0x80 + n % 64]

/-- Python `str.encode('utf-8')`. -/
def utf8Encode (s : String) : List Nat :=
  s.data.flatMap utf8EncodeChar

/-- Truncation to a 32-bit word. -/
def w32 (n : Nat) : Nat := n % 4294967296

/-- Right rotation of a 32-bit word by `r` places. -/
def rotr (r x : Nat) : Nat := x / 2 ^ r + x % 2 ^ r * 2 ^ (32 - r)

/-- Bitwise complement of a 32-bit word. -/
def not32 (x : Nat) : Nat := Nat.xor x 4294967295

/-- The SHA-256 working variables. -/
structure Sha256St where
  a : Nat
  b : Nat
  c : Nat
  d : Nat
  e : Nat
  f : Nat
  g : Nat
  h : Nat

/-- The SHA-256 initial hash value. -/
def sha256Init : Sha256St :=
  ⟨1779033703, 3144134277, 1013904242, 2773480762,
   1359893119, 2600822924, 528734635, 1541459225⟩

/-- The SHA-256 round constants. -/
def sha256K : List Nat :=
  [1116352408, 1899447441, 3049323471, 3921009573,
   961987163, 1508970993, 2453635748, 2870763221,
   3624381080, 310598401, 607225278, 1426881987,
   1925078388, 2162078206, 2614888103, 3248222580,
   3835390401, 4022224774, 264347078, 604807628,
   770255983, 1249150122, 1555081692, 1996064986,
   2554220882, 2821834349, 2952996808, 3210313671,
   3336571891, 3584528711, 113926993, 338241895,
   666307205, 773529912, 1294757372, 1396182291,
   1695183700, 1986661051, 2177026350, 2456956037,
   2730485921, 2820302411, 3259730800, 3345764771,
   3516065817, 3600352804, 4094571909, 275423344,
   430227734, 506948616, 659060556, 883997877,
   958139571, 1322822218, 1537002063, 1747873779,
   1955562222, 2024104815, 2227730452, 2361852424,
   2428436474, 2756734187, 3204031479, 3329325298]

/-- One SHA-256 compression round with round constant `k` and schedule word `w`. -/
def sha256Round (st : Sha256St) (kw : Nat × Nat) : Sha256St :=
  let s1 := Nat.xor (rotr 6 st.e) (Nat.xor (rotr 11 st.e) (rotr 25 st.e))
  let ch := Nat.xor (Nat.land st.e st.f) (Nat.land (not32 st.e) st.g)
  let t1 := w32 (st.h + s1 + ch + kw.1 + kw.2)
  let s0 := Nat.xor (rotr 2 st.a) (Nat.xor (rotr 13 st.a) (rotr 22 st.a))
  let mj := Nat.xor (Nat.land st.a st.b) (Nat.xor (Nat.land st.a st.c) (Nat.land st.b st.c))
  let t2 := w32 (s0 + mj)
  ⟨w32 (t1 + t2), st.a, st.b, st.c, w32 (st.d + t1), st.e, st.f, st.g⟩

/-- Big-endian 32-bit word from four bytes. -/
def beWord4 : List Nat → List Nat
  | b1 :: b2 :: b3 :: b4 :: rest =>
    (b1 * 16777216 + b2 * 65536 + b3 * 256 + b4) :: beWord4 rest
  | _ => []

/-- The small sigma-0 message-schedule function. -/
def ssig0 (x : Nat) : Nat := Nat.xor (rotr 7 x) (Nat.xor (rotr 18 x) (x / 8))

/-- The small sigma-1 message-schedule function. -/
def ssig1 (x : Nat) : Nat := Nat.xor (rotr 17 x) (Nat.xor (rotr 19 x) (x / 1024))

/-- Extend the 16 block words with `fuel` further schedule words. -/
def sha256Extend (ws : List Nat) : Nat → List Nat
  | 0 => ws
  | fuel + 1 =>
    let i := ws.length
    sha256Extend
      (ws ++ [w32 (ws.getD (i - 16) 0 + ssig0 (ws.getD (i - 15) 0) +
        ws.getD (i - 7) 0 + ssig1 (ws.getD (i - 2) 0))]) fuel

/-- Compress one 64-byte block into the running hash value. -/
def sha256Compress (st : Sha256St) (block : List Nat) : Sha256St :=
  let ws := sha256Extend (beWord4 block) 48
  let r := (sha256K.zip ws).foldl sha256Round st
  ⟨w32 (st.a + r.a), w32 (st.b + r.b), w32 (st.c + r.c), w32 (st.d + r.d),
   w32 (st.e + r.e), w32 (st.f + r.f), w32 (st.g + r.g), w32 (st.h + r.h)⟩

/-- Split a byte list into 64-byte blocks. -/
def blocks64 : List Nat → List (List Nat)
  | [] => []
  | b :: rest => ((b :: rest).take 64) :: blocks64 (rest.drop 63)
termination_by bs => bs.length
decreasing_by
  simp only [List.length_drop, List.length_cons]
  omega

/-- Big-endian bytes of a 64-bit value. -/
def be64 (n : Nat) : List Nat :=
  [n / 2 ^ 56 % 256, n / 2 ^ 48 % 256, n / 2 ^ 40 % 256, n / 2 ^ 32 % 256,
   n / 2 ^ 24 % 256, n / 2 ^ 16 % 256, n / 2 ^ 8 % 256, n % 256]

/-- SHA-256 padding: append `0x80`, zeros to 56 mod 64, then the bit length. -/
def sha256Pad (msg : List Nat) : List Nat :=
  msg ++ 0x80 :: List.replicate ((119 - msg.length % 64) % 64) 0 ++ be64 (msg.length * 8)

/-- Big-endian bytes of a 32-bit word (each coerced into byte range). -/
def wordBytes (w : Nat) : List Nat :=
  [w / 2 ^ 24 % 256, w / 2 ^ 16 % 256, w / 2 ^ 8 % 256, w % 256]

/-- The SHA-256 digest of a byte list, as 32 bytes. -/
def sha256 (msg : List Nat) : List Nat :=
  let st := (blocks64 (sha256Pad msg)).foldl sha256Compress sha256Init
  wordBytes st.a ++ wordBytes st.b ++ wordBytes st.c ++ wordBytes st.d ++
    wordBytes st.e ++ wordBytes st.f ++ wordBytes st.g ++ wordBytes st.h

/-- Lowercase hexadecimal digit for a nibble. -/
def hexDigitChar (n : Nat) : Char :=
  "0123456789abcdef".data.getD n 'x'

/-- Two-character lowercase hex rendering of one byte. -/
def byteHex (b : Nat) : List Char :=
  [hexDigitChar (b / 16), hexDigitChar (b % 16)]

/-- `hashlib.sha256(bytes).hexdigest()`. -/
def sha256Hex (msg : List Nat) : String :=
  String.mk ((sha256 msg).flatMap byteHex)

/-- The normalized `cache_key` string built by `hash_prompt`:
`prompt.strip().lower() + "|" + format.lower() + "|" + layout.lower()`. -/
def cacheKey (prompt format layout : String) : String :=
  lowerStr (pyStripStr prompt) ++ "|" ++ lowerStr format ++ "|" ++ lowerStr layout

/-- `hash_prompt` from `app/utils/hash_utils.py`. -/
def hashPrompt (prompt format layout : String) : String :=
  sha256Hex (utf8Encode (cacheKey prompt format layout))

/-! ## PlantUML text encoding (`PlantUMLService._encode_plantuml`)

The encoder compresses the UTF-8 source with zlib and strips the 2-byte zlib
header and 4-byte trailer (`zlib.compress(...)[2:-4]`), leaving a raw deflate
stream; the deflate algorithm itself lives in zlib, so it enters the embedding
as a parameter `deflateRaw` (bytes → raw deflate bytes), with its inverse
`rawInflate` used by the reference decoder. -/

/-- The 64-symbol PlantUML alphabet. -/
def plantumlAlphabet : String :=
  "0123456789ABCDEFGHIJKLMNOPQRSTUVWXYZabcdefghijklmnopqrstuvwxyz-_"

/-- Symbol for a 6-bit value. -/
def pumlChar (n : Nat) : Char :=
  plantumlAlphabet.data.getD n 'x'

/-- `encode3bytes`: three bytes into four alphabet symbols.  Shifts and masks
of the source are written arithmetically: `>> k` is `/ 2^k`, `& 0x3` is `% 4`,
`& 0xF` is `% 16`, `& 0x3F` is `% 64`, and `|` of the disjoint 6-bit fields is
`+`. -/
def encode3bytes (b1 b2 b3 : Nat) : List Char :=
  let c1 := b1 / 4
  let c2 := b1 % 4 * 16 + b2 / 16
  let c3 := b2 % 16 * 4 + b3 / 64
  let c4 := b3 % 64
  [pumlChar (c1 % 64), pumlChar (c2 % 64), pumlChar (c3 % 64), pumlChar (c4 % 64)]

/-- The 3-byte chunking loop of `_encode_plantuml`: a final partial group is
zero-padded. -/
def encodeChunks : List Nat → List Char
  | [] => []
  | [b1] => encode3bytes b1 0 0
  | [b1, b2] => encode3bytes b1 b2 0
  | b1 :: b2 :: b3 :: rest => encode3bytes b1 b2 b3 ++ encodeChunks rest

/-- `PlantUMLService._encode_plantuml`, parameterised by the raw-deflate
compressor. -/
def encodePlantuml (deflateRaw : List Nat → List Nat) (plantumlText : String) : List Char :=
  encodeChunks (deflateRaw (utf8Encode plantumlText))

/-- Index of a symbol in the PlantUML alphabet (the decoder's inverse table). -/
def pumlIndex (c : Char) : Nat :=
  (plantumlAlphabet.data.indexOf c)

/-- Reference decode of one 4-symbol group back into three bytes. -/
def decode4 (c1 c2 c3 c4 : Char) : List Nat :=
  [pumlIndex c1 * 4 + pumlIndex c2 / 16,
   pumlIndex c2 % 16 * 16 + pumlIndex c3 / 4,
   pumlIndex c3 % 4 * 64 + pumlIndex c4]

/-- Reference decode of the symbol stream into bytes, 4 symbols at a time. -/
def groupsToBytes : List Char → List Nat
  | c1 :: c2 :: c3 :: c4 :: rest => decode4 c1 c2 c3 c4 ++ groupsToBytes rest
  | _ => []

/-- Read one UTF-8 continuation byte: its 6-bit payload and the remaining
bytes. -/
def contByte : List Nat → Option (Nat × List Nat)
  | [] => none
  | b :: rest => if 0x80 ≤ b ∧ b < 0xC0 then some (b - 0x80, rest) else none

/-- Decode one UTF-8 scalar from the head of the byte list, returning the
character and the remaining bytes.  Rejects truncated sequences; overlong
forms decode like their value (irrelevant for round trips with
`utf8Encode`). -/
def utf8DecodeChar1 : List Nat → Option (Char × List Nat)
  | [] => none
  | b :: rest =>
    if b < 0x80 then some (Char.ofNat b, rest)
    else if b < 0xC0 then none
    else if b < 0xE0 then
      match contByte rest with
      | some (x2, r2) => some (Char.ofNat ((b - 0xC0) * 64 + x2), r2)
      | none => none
    else if b < 0xF0 then
      match contByte rest with
      | some (x2, r2) =>
        match contByte r2 with
        | some (x3, r3) => some (Char.ofNat ((b - 0xE0) * 4096 + x2 * 64 + x3), r3)
        | none => none
      | none => none
    else
      match contByte rest with
      | some (x2, r2) =>
        match contByte r2 with
        | some (x3, r3) =>
          match contByte r3 with
          | some (x4, r4) =>
            some (Char.ofNat ((b - 0xF0) * 262144 + x2 * 4096 + x3 * 64 + x4), r4)
          | none => none
        | none => none
      | none => none

/-- Fuel-indexed decoding loop: each step consumes at least one byte and
produces one character, so `fuel = bs.length` suffices. -/
def utf8DecodeLoop : Nat → List Nat → Option (List Char)
  | _, [] => some []
  | 0, _ :: _ => none
  | fuel + 1, b :: rest =>
    match utf8DecodeChar1 (b :: rest) with
    | some (c, rest2) => (utf8DecodeLoop fuel rest2).map (fun cs => c :: cs)
    | none => none

/-- UTF-8 decoding (the last step of the reference decoder). -/
def utf8Decode (bs : List Nat) : Option (List Char) :=
  utf8DecodeLoop bs.length bs

/-- The reference decoder of the PlantUML URL encoding: 4-symbol groups to
bytes, inflate the raw deflate stream (zero padding past the end of the stream
is ignored by inflation), decode UTF-8. -/
def refDecodePlantuml (rawInflate : List Nat → List Nat) (enc : List Char) : Option String :=
  (utf8Decode (rawInflate (groupsToBytes enc))).map String.mk

/-! ## Diagram repository (`app/repository/diagram_repository.py`)

`get_by_id`/`delete` parse the id with `uuid.UUID(diagram_id)` inside
`try/except ValueError`.  The stdlib parser is embedded below: it removes
`urn:`/`uuid:` markers and dashes, strips braces, requires exactly 32
remaining characters and parses them with `int(hex, 16)`. -/

/-- Fuel-indexed scan for `pyRemoveAll`; every step consumes at least one
character, so `fuel = cs.length` suffices (the patterns used are nonempty). -/
def pyRemoveAllAux (pat : List Char) : Nat → List Char → List Char
  | _, [] => []
  | 0, cs => cs
  | fuel + 1, c :: rest =>
    if startsList pat (c :: rest) then pyRemoveAllAux pat fuel (rest.drop (pat.length - 1))
    else c :: pyRemoveAllAux pat fuel rest

/-- Python `str.replace(pat, "")`: remove every (leftmost, non-overlapping)
occurrence of `pat`. -/
def pyRemoveAll (pat cs : List Char) : List Char :=
  pyRemoveAllAux pat cs.length cs

/-- Python `str.strip(set)`: drop characters in `set` from both ends. -/
def pyStripSet (set : List Char) (cs : List Char) : List Char :=
  ((cs.dropWhile set.contains).reverse.dropWhile set.contains).reverse

/-- Is `c` a hexadecimal digit? -/
def isHexDigitChar (c : Char) : Bool :=
  ('0' ≤ c && c ≤ '9') || ('a' ≤ c && c ≤ 'f') || ('A' ≤ c && c ≤ 'F')

/-- Value of a hexadecimal digit. -/
def hexDigitVal (c : Char) : Nat :=
  if '0' ≤ c && c ≤ '9' then c.toNat - '0'.toNat
  else if 'a' ≤ c && c ≤ 'f' then c.toNat - 'a'.toNat + 10
  else c.toNat - 'A'.toNat + 10

/-- Hex digit run with single underscores allowed between digits
(Python numeric-literal rules used by `int(s, 16)`). -/
def hexDigitsCore (acc : Nat) : List Char → Option Nat
  | [] => some acc
  | '_' :: c :: rest =>
    if isHexDigitChar c then hexDigitsCore (acc * 16 + hexDigitVal c) rest else none
  | c :: rest =>
    if isHexDigitChar c then hexDigitsCore (acc * 16 + hexDigitVal c) rest else none

/-- Digits after an optional `0x` prefix: must start with a digit. -/
def hexAfterStart : List Char → Option Nat
  | c :: rest => if isHexDigitChar c then hexDigitsCore (hexDigitVal c) rest else none
  | [] => none

/-- Python `int(s, 16)` for a non-negative value: optional surrounding
whitespace, optional `+` sign (a `-` sign yields a value the UUID range check
rejects, so it is folded into the failure case), optional `0x`/`0X` prefix
with an optional single underscore after it. -/
def pyIntHex (cs : List Char) : Option Nat :=
  let t := pyStrip cs
  let t := match t with
    | '+' :: rest => some rest
    | '-' :: _ => none
    | other => some other
  match t with
  | none => none
  | some t =>
    if startsList "0x".data t || startsList "0X".data t then
      match t.drop 2 with
      | '_' :: rest => hexAfterStart rest
      | rest => hexAfterStart rest
    else hexAfterStart t

/-- `uuid.UUID(s)` via the `hex` parameter, as `Option` (a `ValueError`
becomes `none`). -/
def pyUUIDParse (s : String) : Option Nat :=
  let h := pyRemoveAll "uuid:".data (pyRemoveAll "urn:".data s.data)
  let h := pyRemoveAll "-".data (pyStripSet ['\x7b', '\x7d'] h)
  if h.length = 32 then pyIntHex h else none

/-- A stored diagram row (only the fields the embedded operations read). -/
structure DiagramRec where
  dotCode : String
  imageData : Option (List Nat)
deriving DecidableEq

/-- The diagrams table: id (as a 128-bit value) to row. -/
def DiagramDb := List (Nat × DiagramRec)

/-- Primary-key lookup (`session.get`). -/
def dbGet (db : DiagramDb) (u : Nat) : Option DiagramRec :=
  (db.find? (fun p => p.1 = u)).map Prod.snd

/-- Row deletion (`session.delete` + commit). -/
def dbDelete (db : DiagramDb) (u : Nat) : DiagramDb :=
  db.filter (fun p => p.1 ≠ u)

/-- `DiagramRepository.get_by_id`: parse the UUID, returning `None` (not an
exception) on a `ValueError`; otherwise a primary-key lookup. -/
def repoGetById (db : DiagramDb) (diagramId : String) : Except PyExc (Option DiagramRec) :=
  match pyUUIDParse diagramId with
  | none => .ok none
  | some u => .ok (dbGet db u)

/-- `DiagramRepository.delete`: `get_by_id`, then `False` when missing, else
delete and `True`.  Returns the flag and the resulting table. -/
def repoDelete (db : DiagramDb) (diagramId : String) : Except PyExc (Bool × DiagramDb) :=
  match repoGetById db diagramId with
  | .error e => .error e
  | .ok none => .ok (false, db)
  | .ok (some _) =>
    match pyUUIDParse diagramId with
    | some u => .ok (true, dbDelete db u)
    | none => .ok (false, db)

/-- `DiagramService.get_diagram_by_id`: a straight delegation to the
repository. -/
def serviceGetDiagramById (db : DiagramDb) (diagramId : String) :
    Except PyExc (Option DiagramRec) :=
  repoGetById db diagramId

/-- `DiagramService.delete_diagram`: a straight delegation to the repository. -/
def serviceDeleteDiagram (db : DiagramDb) (diagramId : String) :
    Except PyExc (Bool × DiagramDb) :=
  repoDelete db diagramId

/-! ## Orchestrator (`DiagramService.generate_diagram`)

The workflow on its generation path: cache check, LLM generation, render,
best-effort persistence, success log.  The cache, LLM, render backend and
repository are parameters; the generation-log repository is modelled as the
returned list of appended entries. -/

/-- One `generation_log` row (the fields `generate_diagram` sets). -/
structure LogEntry where
  success : Bool
  wasCached : Bool
  errorType : Option String
  diagramId : Option Nat
deriving DecidableEq

/-- A cached diagram as used by the cache-hit path. -/
structure CachedDiagram where
  id : Nat
  dotCode : String
  imageData : Option (List Nat)
deriving DecidableEq

/-- `DiagramService.generate_diagram`: returns the
`(image_bytes, dot_code, diagram_id)` result (or the raised exception)
together with the generation-log entries appended, in order. -/
def generateDiagram
    (cached : Option CachedDiagram)
    (llm : Except PyExc (String × Option Nat))
    (render : String → Except PyExc (List Nat))
    (persist : String → Except PyExc Nat)
    (saveToDb : Bool) :
    Except PyExc (List Nat × String × Option Nat) × List LogEntry :=
  match cached with
  | some cd =>
    let logs := [⟨true, true, none, some cd.id⟩]
    match cd.imageData with
    | some img => (.ok (img, cd.dotCode, some cd.id), logs)
    | none =>
      match render cd.dotCode with
      | .ok img => (.ok (img, cd.dotCode, some cd.id), logs)
      | .error e => (.error e, logs)
  | none =>
    match llm with
    | .error e =>
      (.error (.diagramGenerationError "Failed to generate diagram from prompt" (some (excStr e))),
       [⟨false, false, some "LLMError", none⟩])
    | .ok (dotCode, _tokens) =>
      match render dotCode with
      | .error e =>
        (.error (.diagramGenerationError "Failed to render diagram" (some (excStr e))),
         [⟨false, false, some "RenderError", none⟩])
      | .ok img =>
        let diagramId : Option Nat :=
          if saveToDb then
            match persist dotCode with
            | .ok i => some i
            | .error _ => none
          else none
        (.ok (img, dotCode, diagramId), [⟨true, false, none, diagramId⟩])

/-! ## Auxiliary definitions used by the statements and witnesses -/

/-- Is `c` one of the 16 lowercase hexadecimal digit characters? -/
def isLowerHexDigit (c : Char) : Bool :=
  "0123456789abcdef".data.contains c

/-- A concrete invertible byte-to-byte coder standing in for zlib raw deflate
in witnesses: escape every byte as `1, b` and terminate with `2`. -/
def wDeflate (bs : List Nat) : List Nat :=
  bs.flatMap (fun b => [1, b]) ++ [2]

/-- The matching inflator for `wDeflate`: reads escaped bytes up to the
terminator and ignores everything after it. -/
def wInflate : List Nat → List Nat
  | 1 :: b :: rest => b :: wInflate rest
  | _ => []

/-! # Theorems -/

/-! ## Helper lemmas about the retry loop -/

theorem attemptEval_backend_error (b : Nat → Except String (String × Option Nat))
    (ex : String → Except PyExc String) (i : Nat) (m : String) (h : b i = .error m) :
    attemptEval b ex i = .error (.llmError ("LLM API call failed: " ++ m) none) := by
  simp [attemptEval, callLLMWithPrompt, h]

theorem genLoop_calls_le (b : Nat → Except String (String × Option Nat))
    (ex : String → Except PyExc String) (mr : Nat) (fm dm dd : String) :
    ∀ fuel attempt calls sleeps,
      (genLoop b ex mr fm dm dd attempt fuel calls sleeps).2.calls ≤ calls + fuel := by
  intro fuel
  induction fuel with
  | zero => intro attempt calls sleeps; simp [genLoop]
  | succ f ih =>
    intro attempt calls sleeps
    simp only [genLoop]
    cases he : attemptEval b ex attempt with
    | ok res => simp
    | error e =>
      by_cases hlt : attempt < mr - 1
      · simp only [hlt, if_true]
        have := ih (attempt + 1) (calls + 1) (sleeps ++ [2 ^ attempt])
        omega
      · simp only [hlt, if_false]
        simp

theorem genLoop_calls_ge (b : Nat → Except String (String × Option Nat))
    (ex : String → Except PyExc String) (mr : Nat) (fm dm dd : String) :
    ∀ fuel attempt calls sleeps,
      calls ≤ (genLoop b ex mr fm dm dd attempt fuel calls sleeps).2.calls := by
  intro fuel
  induction fuel with
  | zero => intro attempt calls sleeps; simp [genLoop]
  | succ f ih =>
    intro attempt calls sleeps
    simp only [genLoop]
    cases he : attemptEval b ex attempt with
    | ok res => simp
    | error e =>
      by_cases hlt : attempt < mr - 1
      · simp only [hlt, if_true]
        have := ih (attempt + 1) (calls + 1) (sleeps ++ [2 ^ attempt])
        omega
      · simp only [hlt, if_false]
        simp

theorem genLoop_calls_ge_succ (b : Nat → Except String (String × Option Nat))
    (ex : String → Except PyExc String) (mr : Nat) (fm dm dd : String) :
    ∀ f attempt calls sleeps,
      calls + 1 ≤ (genLoop b ex mr fm dm dd attempt (f + 1) calls sleeps).2.calls := by
  intro f attempt calls sleeps
  simp only [genLoop]
  cases he : attemptEval b ex attempt with
  | ok res => simp
  | error e =>
    by_cases hlt : attempt < mr - 1
    · simp only [hlt, if_true]
      exact genLoop_calls_ge b ex mr fm dm dd f (attempt + 1) (calls + 1) (sleeps ++ [2 ^ attempt])
    · simp only [hlt, if_false]
      simp

theorem genLoop_sleeps_extend (b : Nat → Except String (String × Option Nat))
    (ex : String → Except PyExc String) (mr : Nat) (fm dm dd : String) :
    ∀ fuel attempt calls sleeps,
      ∃ ext, (genLoop b ex mr fm dm dd attempt fuel calls sleeps).2.sleeps = sleeps ++ ext := by
  intro fuel
  induction fuel with
  | zero => intro attempt calls sleeps; exact ⟨[], by simp [genLoop]⟩
  | succ f ih =>
    intro attempt calls sleeps
    simp only [genLoop]
    cases he : attemptEval b ex attempt with
    | ok res => exact ⟨[], by simp⟩
    | error e =>
      by_cases hlt : attempt < mr - 1
      · simp only [hlt, if_true]
        obtain ⟨ext, hext⟩ := ih (attempt + 1) (calls + 1) (sleeps ++ [2 ^ attempt])
        exact ⟨2 ^ attempt :: ext, by simpa using hext⟩
      · simp only [hlt, if_false]
        exact ⟨[], by simp⟩

/-! ## C1: retry policy of the live LLM client -/

/-- C1: a live-mode generation makes at most 3 provider attempts; a backend
that raises on the first two attempts and succeeds on the third yields the
successful result with exactly the two backoff sleeps 1s and 2s and no error;
a backend that raises on all three attempts yields an `LLMError` after exactly
3 attempts (with the same two sleeps having been performed). -/
theorem generate_dot_retry_policy :
    (∀ b, (generateDotLive b 3).2.calls ≤ 3) ∧
    (∀ (b : Nat → Except String (String × Option Nat)) m0 m1 res,
      b 0 = .error m0 → b 1 = .error m1 →
      attemptEval b extractDot 2 = .ok res →
      generateDotLive b 3 = (.ok res, ⟨3, [1, 2]⟩)) ∧
    (∀ (b : Nat → Except String (String × Option Nat)) m0 m1 m2,
      b 0 = .error m0 → b 1 = .error m1 → b 2 = .error m2 →
      generateDotLive b 3 =
        (.error (.llmError "Failed to generate DOT code after 3 attempts"
          (some ("LLM API call failed: " ++ m2))), ⟨3, [1, 2]⟩)) := by
  refine ⟨fun b => ?_, fun b m0 m1 res h0 h1 h2 => ?_, fun b m0 m1 m2 h0 h1 h2 => ?_⟩
  · exact genLoop_calls_le b extractDot 3 _ _ _ 3 0 0 []
  · have a0 := attemptEval_backend_error b extractDot 0 m0 h0
    have a1 := attemptEval_backend_error b extractDot 1 m1 h1
    simp [generateDotLive, genLoop, a0, a1, h2]
  · have a0 := attemptEval_backend_error b extractDot 0 m0 h0
    have a1 := attemptEval_backend_error b extractDot 1 m1 h1
    have a2 := attemptEval_backend_error b extractDot 2 m2 h2
    have hmsg : ("Failed to generate DOT code after " ++ toString (3 : Nat) ++ " attempts")
        = "Failed to generate DOT code after 3 attempts" := by decide
    simp [generateDotLive, genLoop, a0, a1, a2, excStr, hmsg]

/-- Witness for C1 at concrete backends. -/
theorem generate_dot_retry_policy_witness :
    (generateDotLive (fun i => if i < 2 then .error "boom"
        else .ok ("digraph g \x7b a -> b; \x7d", some 42)) 3).2.calls ≤ 3 ∧
    generateDotLive (fun i => if i < 2 then .error "boom"
        else .ok ("digraph g \x7b a -> b; \x7d", some 42)) 3
      = (.ok ("digraph g \x7b a -> b; \x7d", some 42), ⟨3, [1, 2]⟩) ∧
    generateDotLive (fun _ => .error "boom") 3
      = (.error (.llmError "Failed to generate DOT code after 3 attempts"
          (some ("LLM API call failed: " ++ "boom"))), ⟨3, [1, 2]⟩) :=
  ⟨generate_dot_retry_policy.1 _,
   generate_dot_retry_policy.2.1 _ "boom" "boom" ("digraph g \x7b a -> b; \x7d", some 42)
     rfl rfl rfl,
   generate_dot_retry_policy.2.2 _ "boom" "boom" "boom" rfl rfl rfl⟩

/-! ## C2: whether an extraction failure is retried -/

/-- C2 counterexample: a backend whose provider call always succeeds with the
non-empty response "no code here" (on which DOT extraction fails).  Contrary to
the claim, the failure is retried: 3 provider calls are made and the backoff
sleeps 1s and 2s are performed before an `LLMError` wrapping the extraction
error is raised; the extraction error is not propagated immediately. -/
theorem extraction_failure_not_retried_cex :
    attemptEval (fun _ => .ok ("no code here", none)) extractDot 0
      = .error (.llmError "Invalid DOT code: must contain 'graph' or 'digraph' declaration" none) ∧
    (generateDotLive (fun _ => .ok ("no code here", none)) 3).2.calls = 3 ∧
    (generateDotLive (fun _ => .ok ("no code here", none)) 3).2.sleeps = [1, 2] ∧
    generateDotLive (fun _ => .ok ("no code here", none)) 3
      = (.error (.llmError "Failed to generate DOT code after 3 attempts"
          (some "Invalid DOT code: must contain 'graph' or 'digraph' declaration")), ⟨3, [1, 2]⟩) :=
  ⟨rfl, rfl, rfl, rfl⟩

/-- C2 amended: when the provider call of the first attempt returns a response
that normalizes to a non-empty string but the per-kind extraction fails, the
failure is treated like any other attempt failure: the client performs the
backoff sleep of 1 second and continues with a second provider attempt
(so at least 2 provider calls are made), rather than propagating the
extraction error immediately. -/
theorem extraction_failure_is_retried (b : Nat → Except String (String × Option Nat))
    (r : String) (t : Option Nat) (e : PyExc)
    (hb : b 0 = .ok (r, t)) (hr : r ≠ "") (hs : pyStripStr r ≠ "")
    (he : extractDot (pyStripStr r) = .error e) :
    generateDotLive b 3 =
      genLoop b extractDot 3 "Failed to generate DOT code after 3 attempts"
        "LLM generation ended unexpectedly: no result produced"
        "Internal error in generate_dot_code control flow" 1 2 1 [1] ∧
    2 ≤ (generateDotLive b 3).2.calls ∧
    (generateDotLive b 3).2.sleeps.head? = some 1 := by
  have a0 : attemptEval b extractDot 0 = .error e := by
    simp [attemptEval, callLLMWithPrompt, hb, hr, hs, he]
  have hmsg : ("Failed to generate DOT code after " ++ toString (3 : Nat) ++ " attempts")
      = "Failed to generate DOT code after 3 attempts" := by decide
  have hstep : generateDotLive b 3 =
      genLoop b extractDot 3 "Failed to generate DOT code after 3 attempts"
        "LLM generation ended unexpectedly: no result produced"
        "Internal error in generate_dot_code control flow" 1 2 1 [1] := by
    simp [generateDotLive, genLoop, a0, hmsg]
  refine ⟨hstep, ?_, ?_⟩
  · rw [hstep]
    exact genLoop_calls_ge_succ b extractDot 3 _ _ _ 1 1 1 [1]
  · rw [hstep]
    obtain ⟨ext, hext⟩ := genLoop_sleeps_extend b extractDot 3
      "Failed to generate DOT code after 3 attempts"
      "LLM generation ended unexpectedly: no result produced"
      "Internal error in generate_dot_code control flow" 2 1 1 [1]
    rw [hext]
    rfl

/-- Witness for the amended C2 at a concrete backend. -/
theorem extraction_failure_is_retried_witness :
    generateDotLive (fun _ => .ok ("no code here", none)) 3 =
      genLoop (fun _ => .ok ("no code here", none)) extractDot 3
        "Failed to generate DOT code after 3 attempts"
        "LLM generation ended unexpectedly: no result produced"
        "Internal error in generate_dot_code control flow" 1 2 1 [1] ∧
    2 ≤ (generateDotLive (fun _ => .ok ("no code here", none)) 3).2.calls ∧
    (generateDotLive (fun _ => .ok ("no code here", none)) 3).2.sleeps.head? = some 1 :=
  extraction_failure_is_retried (fun _ => .ok ("no code here", none)) "no code here" none
    (.llmError "Invalid DOT code: must contain 'graph' or 'digraph' declaration" none)
    rfl (by decide) (by decide) rfl

/-! ## C6: validation gate of the local graphviz render adapter -/

/-- C6 counterexample: the claim's per-check message guarantees do not hold
for every call.  With format "gif" (and a DOT string whose trimmed form is
shorter than 10 characters), the raised `ValidationError` message is about the
format and does not contain "too short"; with a 13-character DOT string that
has unbalanced braces but does not start with a graph keyword, the raised
`ValidationError` message is the leading-keyword one and does not contain
"Unbalanced braces". -/
theorem render_validation_gate_cex :
    (pyStrip "x".data).length < 10 ∧
    renderToBytes (fun _ _ _ => .ok []) "x" "gif" "dot"
      = .error (.validationError "Invalid format: gif. Must be 'svg' or 'png'") ∧
    containsSub "too short".data "Invalid format: gif. Must be 'svg' or 'png'".data = false ∧
    (pyStrip "hello \x7b world".data).count '\x7b' ≠ (pyStrip "hello \x7b world".data).count '\x7d' ∧
    renderToBytes (fun _ _ _ => .ok []) "hello \x7b world" "svg" "dot"
      = .error (.validationError "DOT code must start with 'graph' or 'digraph'") ∧
    containsSub "Unbalanced braces".data "DOT code must start with 'graph' or 'digraph'".data
      = false :=
  ⟨by decide, rfl, by decide, by decide, rfl, by decide⟩

/-- C6 amended: with a valid format and engine, a DOT string whose trimmed
form is shorter than 10 characters raises `ValidationError` "DOT code too
short" (whose message contains "too short"); with a valid format and engine, a
DOT string that passes the length and leading-keyword checks and whose counts
of opening and closing braces differ raises `ValidationError` "Unbalanced
braces in DOT code"; and a call with an engine outside the allow-list
\x7bdot, neato, fdp, sfdp, twopi, circo\x7d always raises a
`ValidationError` — all before any rendering backend is invoked (the result
is the same for every backend). -/
theorem render_validation_gate :
    (∀ (bp : String → String → String → Except String (List Nat)) (dot fmt engine : String),
      (fmt = "svg" ∨ fmt = "png") → engine ∈ validEngines →
      (pyStrip dot.data).length < 10 →
      renderToBytes bp dot fmt engine = .error (.validationError "DOT code too short") ∧
      containsSub "too short".data "DOT code too short".data = true) ∧
    (∀ (bp : String → String → String → Except String (List Nat)) (dot fmt engine : String),
      (fmt = "svg" ∨ fmt = "png") → engine ∈ validEngines →
      ¬ (pyStrip dot.data).length < 10 →
      (startsList "graph".data (pyStrip dot.data) || startsList "digraph".data (pyStrip dot.data) ||
       startsList "strict graph".data (pyStrip dot.data) ||
       startsList "strict digraph".data (pyStrip dot.data)) = true →
      (pyStrip dot.data).count '\x7b' ≠ (pyStrip dot.data).count '\x7d' →
      renderToBytes bp dot fmt engine = .error (.validationError "Unbalanced braces in DOT code") ∧
      containsSub "Unbalanced braces".data "Unbalanced braces in DOT code".data = true) ∧
    (∀ (bp : String → String → String → Except String (List Nat)) (dot fmt engine : String),
      engine ∉ validEngines →
      ∃ m, renderToBytes bp dot fmt engine = .error (.validationError m)) := by
  refine ⟨fun bp dot fmt engine hfmt heng hlen => ⟨?_, by decide⟩,
    fun bp dot fmt engine hfmt heng hlen hstart hbrace => ⟨?_, by decide⟩,
    fun bp dot fmt engine heng => ?_⟩
  · rcases hfmt with h | h <;> subst h <;>
      simp [renderToBytes, validateDotSyntax, heng, hlen]
  · rcases hfmt with h | h <;> subst h <;>
      simp [renderToBytes, validateDotSyntax, heng, hlen, hstart, hbrace]
  · by_cases hfmt : (fmt = "svg" || fmt = "png") = true
    · exact ⟨"Invalid engine: " ++ engine ++
        ". Must be one of ['dot', 'neato', 'fdp', 'sfdp', 'twopi', 'circo']",
        by simp [renderToBytes, hfmt, heng]⟩
    · exact ⟨"Invalid format: " ++ fmt ++ ". Must be 'svg' or 'png'",
        by simp only [renderToBytes, hfmt, Bool.not_false, Bool.false_eq_true,
          not_false_eq_true, if_true]⟩

/-- Witness for the amended C6 at concrete calls. -/
theorem render_validation_gate_witness :
    (renderToBytes (fun _ _ _ => .ok []) "x" "svg" "dot"
        = .error (.validationError "DOT code too short") ∧
      containsSub "too short".data "DOT code too short".data = true) ∧
    (renderToBytes (fun _ _ _ => .ok []) "digraph g \x7b" "svg" "dot"
        = .error (.validationError "Unbalanced braces in DOT code") ∧
      containsSub "Unbalanced braces".data "Unbalanced braces in DOT code".data = true) ∧
    (∃ m, renderToBytes (fun _ _ _ => .ok []) "digraph g \x7b\x7d" "svg" "sugiyama"
        = .error (.validationError m)) :=
  ⟨render_validation_gate.1 _ "x" "svg" "dot" (Or.inl rfl) (by decide) (by decide),
   render_validation_gate.2.1 _ "digraph g \x7b" "svg" "dot" (Or.inl rfl) (by decide)
     (by decide) (by decide) (by decide),
   render_validation_gate.2.2 _ "digraph g \x7b\x7d" "svg" "sugiyama" (by decide)⟩

/-! ## C8: error class of a failed graphviz extraction -/

/-- C8 counterexample: on the raw text "hello world" (which contains neither
`graph` nor `digraph`), `_extract_dot` fails — but the raised error is of the
`LLMError` class, not `ValidationError` as the claim states. -/
theorem extract_dot_failure_class_cex :
    extractDot "hello world"
      = .error (.llmError "Invalid DOT code: must contain 'graph' or 'digraph' declaration" none) ∧
    (match extractDot "hello world" with
     | .error e => e.isValidationError
     | .ok _ => true) = false ∧
    (match extractDot "hello world" with
     | .error e => e.isLLMError
     | .ok _ => false) = true :=
  ⟨rfl, rfl, rfl⟩

/-- C8 amended: for every raw LLM text for the graphviz kind whose
fence-extracted (or trimmed) body contains neither the token `graph` nor
`digraph` (case-insensitive), the code extractor fails, and the raised error
is of the `LLMError` class. -/
theorem extract_dot_failure_class (s : String)
    (h : containsGraphDecl (fenceOrWhole dotFenceTags s) = false) :
    extractDot s
      = .error (.llmError "Invalid DOT code: must contain 'graph' or 'digraph' declaration" none) ∧
    (PyExc.llmError "Invalid DOT code: must contain 'graph' or 'digraph' declaration"
      none).isLLMError = true := by
  exact ⟨by simp [extractDot, h], rfl⟩

/-- Witness for the amended C8 at a concrete input. -/
theorem extract_dot_failure_class_witness :
    extractDot "just some prose"
      = .error (.llmError "Invalid DOT code: must contain 'graph' or 'digraph' declaration" none) ∧
    (PyExc.llmError "Invalid DOT code: must contain 'graph' or 'digraph' declaration"
      none).isLLMError = true :=
  extract_dot_failure_class "just some prose" (by decide)

/-! ## C9: persistence failures after a successful render are swallowed -/

/-- C9: on a cache miss with successful LLM generation and render, any
exception raised while persisting the diagram does not fail the request:
`generate_diagram` still returns the image bytes and DOT code (with the
diagram id absent) and still appends the success log entry. -/
theorem persistence_failure_swallowed
    (llm : Except PyExc (String × Option Nat)) (render : String → Except PyExc (List Nat))
    (persist : String → Except PyExc Nat) (e : PyExc) (img : List Nat) (dotCode : String)
    (tokens : Option Nat)
    (hl : llm = .ok (dotCode, tokens)) (hr : render dotCode = .ok img)
    (hp : persist dotCode = .error e) :
    generateDiagram none llm render persist true
      = (.ok (img, dotCode, none), [⟨true, false, none, none⟩]) := by
  subst hl
  simp [generateDiagram, hr, hp]

/-- Witness for C9 at a concrete pipeline whose persistence layer raises. -/
theorem persistence_failure_swallowed_witness :
    generateDiagram none (.ok ("digraph g \x7b\x7d", some 5)) (fun _ => .ok [7, 7])
      (fun _ => .error (.otherError "db down")) true
      = (.ok ([7, 7], "digraph g \x7b\x7d", none), [⟨true, false, none, none⟩]) :=
  persistence_failure_swallowed _ _ _ (.otherError "db down") [7, 7] "digraph g \x7b\x7d"
    (some 5) rfl rfl rfl

/-! ## C10: malformed diagram ids behave like missing rows -/

/-- C10: a diagram id that is not a syntactically valid UUID makes
`get_by_id` return `None` and `delete` return `False` without surfacing a
parse exception — exactly the behavior for a well-formed id with no matching
row — and the service-level get/delete operations delegate to these. -/
theorem malformed_uuid_treated_as_missing :
    (∀ (db : DiagramDb) (s : String), pyUUIDParse s = none →
      repoGetById db s = .ok none ∧ repoDelete db s = .ok (false, db) ∧
      serviceGetDiagramById db s = .ok none ∧ serviceDeleteDiagram db s = .ok (false, db)) ∧
    (∀ (db : DiagramDb) (s : String) (u : Nat), pyUUIDParse s = some u → dbGet db u = none →
      repoGetById db s = .ok none ∧ repoDelete db s = .ok (false, db)) := by
  constructor
  · intro db s h
    refine ⟨?_, ?_, ?_, ?_⟩ <;>
      simp [repoGetById, repoDelete, serviceGetDiagramById, serviceDeleteDiagram, h]
  · intro db s u h hu
    constructor <;> simp [repoGetById, repoDelete, h, hu]

/-- Witness for C10: the malformed id "not-a-uuid" and a well-formed id
missing from an empty table. -/
theorem malformed_uuid_treated_as_missing_witness :
    (repoGetById [] "not-a-uuid" = .ok none ∧ repoDelete [] "not-a-uuid" = .ok (false, []) ∧
     serviceGetDiagramById [] "not-a-uuid" = .ok none ∧
     serviceDeleteDiagram [] "not-a-uuid" = .ok (false, [])) ∧
    (repoGetById [] "a8098c1a-f86e-11da-bd1a-00112444be1e" = .ok none ∧
     repoDelete [] "a8098c1a-f86e-11da-bd1a-00112444be1e" = .ok (false, [])) :=
  ⟨malformed_uuid_treated_as_missing.1 [] "not-a-uuid" rfl,
   malformed_uuid_treated_as_missing.2 [] "a8098c1a-f86e-11da-bd1a-00112444be1e"
     223359875637754765292326297443183672862 rfl rfl⟩

/-! ## Helper lemmas about string predicates -/

theorem startsList_iff (p cs : List Char) : startsList p cs = true ↔ p <+: cs := by
  induction p generalizing cs with
  | nil => simp [startsList]
  | cons a ps ih =>
    cases cs with
    | nil => simp [startsList]
    | cons c cs2 => simp [startsList, ih, List.cons_prefix_cons]

theorem endsList_iff (p cs : List Char) : endsList p cs = true ↔ p <:+ cs := by
  rw [endsList, startsList_iff]
  exact List.reverse_prefix

theorem startsList_append_of (p a : List Char) (b : List Char)
    (h : startsList p a = true) : startsList p (a ++ b) = true :=
  (startsList_iff _ _).mpr (((startsList_iff _ _).mp h).trans (List.prefix_append a b))

theorem containsSub_of_startsList (p cs : List Char) (h : startsList p cs = true) :
    containsSub p cs = true := by
  cases cs <;> simp [containsSub, h]

theorem lowerList_append (a b : List Char) :
    lowerList (a ++ b) = lowerList a ++ lowerList b := by
  simp [lowerList]

/-! ## C3: the prompt fingerprint -/

theorem wordBytes_lt (w : Nat) : ∀ b ∈ wordBytes w, b < 256 := by
  intro b hb
  simp only [wordBytes, List.mem_cons, List.not_mem_nil, or_false] at hb
  rcases hb with h | h | h | h <;> omega

theorem sha256_length (msg : List Nat) : (sha256 msg).length = 32 := by
  simp [sha256, wordBytes]

theorem sha256_bytes_lt (msg : List Nat) : ∀ b ∈ sha256 msg, b < 256 := by
  intro b hb
  simp only [sha256, List.mem_append] at hb
  rcases hb with ((((((h | h) | h) | h) | h) | h) | h) | h <;> exact wordBytes_lt _ b h

theorem hexDigitChar_lower_hex : ∀ n, n < 16 → isLowerHexDigit (hexDigitChar n) = true := by
  decide

theorem flatMap_byteHex_length (l : List Nat) : (l.flatMap byteHex).length = 2 * l.length := by
  induction l with
  | nil => simp
  | cons b bs ih => simp [byteHex, ih]; omega

theorem flatMap_byteHex_hex (l : List Nat) (h : ∀ b ∈ l, b < 256) :
    ∀ c ∈ l.flatMap byteHex, isLowerHexDigit c = true := by
  induction l with
  | nil => simp
  | cons b bs ih =>
    intro c hc
    simp only [List.flatMap_cons, List.mem_append] at hc
    rcases hc with hc | hc
    · have hb : b < 256 := h b (by simp)
      simp only [byteHex, List.mem_cons, List.not_mem_nil, or_false] at hc
      rcases hc with rfl | rfl
      · exact hexDigitChar_lower_hex _ (by omega)
      · exact hexDigitChar_lower_hex _ (by omega)
    · exact ih (fun x hx => h x (by simp [hx])) c hc

/-- C3: the prompt fingerprint is deterministic; it is case- and
whitespace-normalizing ("Draw X" and "draw x" collide); it is the SHA-256 hex
digest of the UTF-8 bytes of `prompt.strip().lower() + "|" + format.lower() +
"|" + layout.lower()`; and its output is always exactly 64 characters, each a
lowercase hexadecimal digit. -/
theorem hash_prompt_fingerprint :
    (∀ p f l, hashPrompt p f l = hashPrompt p f l) ∧
    hashPrompt "Draw X" "svg" "dot" = hashPrompt "draw x" "svg" "dot" ∧
    (∀ p f l, hashPrompt p f l = sha256Hex (utf8Encode (cacheKey p f l))) ∧
    (∀ p f l, (hashPrompt p f l).data.length = 64 ∧
      ∀ c ∈ (hashPrompt p f l).data, isLowerHexDigit c = true) := by
  refine ⟨fun p f l => rfl, ?_, fun p f l => rfl, fun p f l => ⟨?_, ?_⟩⟩
  · exact congrArg (fun k => sha256Hex (utf8Encode k))
      (show cacheKey "Draw X" "svg" "dot" = cacheKey "draw x" "svg" "dot" from rfl)
  · show ((sha256 (utf8Encode (cacheKey p f l))).flatMap byteHex).length = 64
    rw [flatMap_byteHex_length, sha256_length]
  · intro c hc
    exact flatMap_byteHex_hex _ (sha256_bytes_lt _) c hc

/-! ## C5: WBS extractor auto-wrap -/

theorem no_marker_suffix_prepend (p t : List Char)
    (hp : p = "@endwbs".data ∨ p = "@enduml".data)
    (h : ¬ p <:+ t) : ¬ p <:+ ("@startwbs\n".data ++ t) := by
  rintro ⟨u, hu⟩
  rcases List.append_eq_append_iff.mp hu with ⟨a, ha1, ha2⟩ | ⟨c, _, hc2⟩
  · by_cases haz : a = []
    · subst haz
      simp only [List.nil_append] at ha2
      exact h (ha2 ▸ List.suffix_refl t)
    · have hamem : a ∈ ("@startwbs\n".data).tails := (List.mem_tails _ _).mpr ⟨u, ha1.symm⟩
      have hap : a <+: p := ⟨t, ha2.symm⟩
      have hall : ∀ x ∈ ("@startwbs\n".data).tails,
          x = [] ∨ (¬ x <+: "@endwbs".data ∧ ¬ x <+: "@enduml".data) := by decide
      rcases hall a hamem with rfl | ⟨hq1, hq2⟩
      · exact haz rfl
      · rcases hp with rfl | rfl
        · exact hq1 hap
        · exact hq2 hap
  · exact h ⟨c, hc2.symm⟩

theorem wrapEnd_starts_of (p c1 : List Char) (h : startsList p c1 = true) :
    startsList p (wrapEnd c1) = true := by
  rw [wrapEnd]
  by_cases hE : (endsList "@endwbs".data c1 || endsList "@enduml".data c1) = true
  · rw [if_pos hE]
    exact h
  · rw [if_neg hE]
    exact startsList_append_of _ _ _ h

theorem wrapTags_no_markers (t : List Char)
    (h1 : startsList "@startwbs".data t = false)
    (h2 : startsList "@startuml".data t = false)
    (h3 : endsList "@endwbs".data t = false)
    (h4 : endsList "@enduml".data t = false) :
    wrapTags t = "@startwbs\n".data ++ t ++ "\n@endwbs".data := by
  have he1 : endsList "@endwbs".data ("@startwbs\n".data ++ t) = false := by
    rw [Bool.eq_false_iff]
    intro hcon
    exact no_marker_suffix_prepend _ _ (Or.inl rfl)
      (fun hsuf => by simp [(endsList_iff _ _).mpr hsuf] at h3)
      ((endsList_iff _ _).mp hcon)
  have he2 : endsList "@enduml".data ("@startwbs\n".data ++ t) = false := by
    rw [Bool.eq_false_iff]
    intro hcon
    exact no_marker_suffix_prepend _ _ (Or.inr rfl)
      (fun hsuf => by simp [(endsList_iff _ _).mpr hsuf] at h4)
      ((endsList_iff _ _).mp hcon)
  have hpre : prependStart t = "@startwbs\n".data ++ t := by
    rw [prependStart, if_neg]
    rw [h1, h2]
    simp
  rw [wrapTags, hpre, wrapEnd, if_neg]
  rw [he1, he2]
  simp

theorem wrapTags_starts (t : List Char) :
    startsList "@startwbs".data (wrapTags t) = true ∨
    startsList "@startuml".data (wrapTags t) = true := by
  rw [wrapTags]
  by_cases hS : (startsList "@startwbs".data t || startsList "@startuml".data t) = true
  · rcases Bool.or_eq_true_iff.mp hS with hs1 | hs1
    · exact Or.inl (wrapEnd_starts_of _ _ (by rw [prependStart, if_pos hS]; exact hs1))
    · exact Or.inr (wrapEnd_starts_of _ _ (by rw [prependStart, if_pos hS]; exact hs1))
  · refine Or.inl (wrapEnd_starts_of _ _ ?_)
    rw [prependStart, if_neg hS]
    exact startsList_append_of _ _ _ (by decide)

theorem extractPlantuml_ok_data (s : String) (r : String)
    (hr : extractPlantuml s = .ok r) :
    r.data = wrapTags (fenceOrWhole plantumlFenceTags s) := by
  simp only [extractPlantuml] at hr
  split at hr
  · cases hr
    rfl
  · cases hr

/-- C5: given raw LLM text with no code fence, whose trimmed form has no
`@startwbs`/`@startuml` start marker and no `@endwbs`/`@enduml` end marker,
the WBS extractor succeeds and returns the trimmed text wrapped as
`"@startwbs\n" + text + "\n@endwbs"`; moreover every value the extractor
returns starts with `@startwbs` or `@startuml`. -/
theorem wbs_extractor_autowrap :
    (∀ s : String,
      fenceSearch plantumlFenceTags s.data = none →
      startsList "@startwbs".data (pyStrip s.data) = false →
      startsList "@startuml".data (pyStrip s.data) = false →
      endsList "@endwbs".data (pyStrip s.data) = false →
      endsList "@enduml".data (pyStrip s.data) = false →
      extractPlantuml s
        = .ok (String.mk ("@startwbs\n".data ++ pyStrip s.data ++ "\n@endwbs".data))) ∧
    (∀ (s r : String), extractPlantuml s = .ok r →
      startsList "@startwbs".data r.data = true ∨ startsList "@startuml".data r.data = true) := by
  constructor
  · intro s hf h1 h2 h3 h4
    have hbody : fenceOrWhole plantumlFenceTags s = pyStrip s.data := by
      simp [fenceOrWhole, hf]
    have hwrap : wrapTags (fenceOrWhole plantumlFenceTags s)
        = "@startwbs\n".data ++ pyStrip s.data ++ "\n@endwbs".data := by
      rw [hbody]
      exact wrapTags_no_markers _ h1 h2 h3 h4
    have hstart : containsStartDecl
        ("@startwbs\n".data ++ pyStrip s.data ++ "\n@endwbs".data) = true := by
      have hl : startsList (lowerList "@startwbs".data)
          (lowerList ("@startwbs\n".data ++ pyStrip s.data ++ "\n@endwbs".data)) = true := by
        rw [List.append_assoc, lowerList_append]
        exact startsList_append_of _ _ _ (by decide)
      have hcci : containsSubCI "@startwbs".data
          ("@startwbs\n".data ++ pyStrip s.data ++ "\n@endwbs".data) = true :=
        containsSub_of_startsList _ _ hl
      rw [containsStartDecl, hcci]
      rfl
    simp only [extractPlantuml, hwrap, hstart, if_true]
  · intro s r hr
    rw [extractPlantuml_ok_data s r hr]
    exact wrapTags_starts _

/-- Witness for C5 at the concrete marker-free input from the specification. -/
theorem wbs_extractor_autowrap_witness :
    extractPlantuml "* Root\n** Child" = .ok "@startwbs\n* Root\n** Child\n@endwbs" ∧
    (startsList "@startwbs".data ("@startwbs\n* Root\n** Child\n@endwbs" : String).data = true ∨
     startsList "@startuml".data ("@startwbs\n* Root\n** Child\n@endwbs" : String).data = true) :=
  ⟨wbs_extractor_autowrap.1 "* Root\n** Child" rfl rfl rfl rfl rfl,
   wbs_extractor_autowrap.2 "* Root\n** Child" "@startwbs\n* Root\n** Child\n@endwbs"
     (wbs_extractor_autowrap.1 "* Root\n** Child" rfl rfl rfl rfl rfl)⟩

/-! ## C7: fallback mode -/

/-- C7: with no provider configured, every generate call returns without
error, with `tokens_used` absent and no provider call or sleep, and the
returned text satisfies the per-kind check: the graphviz fallback contains
`graph` or `digraph`, the Gantt fallback contains `gantt`, and the WBS
fallback starts with `@startwbs` and ends with `@endwbs` — for every prompt. -/
theorem fallback_mode_outputs :
    ∀ (prompt : String) (backend : Nat → Except String (String × Option Nat)) (maxRetries : Nat),
      generateDotCode false backend prompt maxRetries
        = (.ok (fallbackMock prompt, none), ⟨0, []⟩) ∧
      generateWbsCode false backend prompt maxRetries
        = (.ok (fallbackMockWbs prompt, none), ⟨0, []⟩) ∧
      generateGanttCode false backend prompt maxRetries
        = (.ok (fallbackMockGantt prompt, none), ⟨0, []⟩) ∧
      ("graph".data <:+: (fallbackMock prompt).data ∨
        "digraph".data <:+: (fallbackMock prompt).data) ∧
      "gantt".data <:+: (fallbackMockGantt prompt).data ∧
      "@startwbs".data <+: (fallbackMockWbs prompt).data ∧
      "@endwbs".data <:+ (fallbackMockWbs prompt).data := by
  intro prompt backend maxRetries
  refine ⟨rfl, rfl, rfl, ?_, ?_, ?_, ?_⟩
  · rw [fallbackMock]
    by_cases h : (directedKeywords.any
        (fun w => containsSub w.data (lowerList prompt.data))) = true
    · rw [if_pos h]
      exact Or.inl (by decide)
    · rw [if_neg h]
      exact Or.inl (by decide)
  · have h1 : "gantt".data <+: "gantt\n    title ".data := by decide
    rw [fallbackMockGantt]
    rw [show ("gantt\n    title " ++ projectName prompt ++
      "\n    dateFormat YYYY-MM-DD\n    axisFormat %b %d\n    \n    section Planning\n    Requirements :done, req, 2025-01-01, 5d\n    Design :active, design, after req, 7d\n    \n    section Development\n    Backend :dev1, after design, 10d\n    Frontend :dev2, after design, 8d\n    \n    section Testing\n    QA Testing :crit, test, after dev1 dev2, 5d\n    \n    section Deployment\n    Deploy :milestone, after test, 0d").data
      = ("gantt\n    title ".data ++ (projectName prompt).data) ++
        "\n    dateFormat YYYY-MM-DD\n    axisFormat %b %d\n    \n    section Planning\n    Requirements :done, req, 2025-01-01, 5d\n    Design :active, design, after req, 7d\n    \n    section Development\n    Backend :dev1, after design, 10d\n    Frontend :dev2, after design, 8d\n    \n    section Testing\n    QA Testing :crit, test, after dev1 dev2, 5d\n    \n    section Deployment\n    Deploy :milestone, after test, 0d".data
      from by simp [String.data_append]]
    exact ((h1.trans (List.prefix_append _ _)).trans (List.prefix_append _ _)).isInfix
  · have h1 : "@startwbs".data <+: "@startwbs\n* ".data := by decide
    rw [fallbackMockWbs]
    rw [show ("@startwbs\n* " ++ projectName prompt ++
      "\n** Planning Phase\n*** Requirements Gathering\n*** Resource Allocation\n** Execution Phase\n*** Task Development\n*** Quality Assurance\n** Completion Phase\n*** Testing\n*** Deployment\n@endwbs").data
      = ("@startwbs\n* ".data ++ (projectName prompt).data) ++
        "\n** Planning Phase\n*** Requirements Gathering\n*** Resource Allocation\n** Execution Phase\n*** Task Development\n*** Quality Assurance\n** Completion Phase\n*** Testing\n*** Deployment\n@endwbs".data
      from by simp [String.data_append]]
    exact (h1.trans (List.prefix_append _ _)).trans (List.prefix_append _ _)
  · have h1 : "@endwbs".data <:+
        "\n** Planning Phase\n*** Requirements Gathering\n*** Resource Allocation\n** Execution Phase\n*** Task Development\n*** Quality Assurance\n** Completion Phase\n*** Testing\n*** Deployment\n@endwbs".data := by
      decide
    rw [fallbackMockWbs]
    rw [show ("@startwbs\n* " ++ projectName prompt ++
      "\n** Planning Phase\n*** Requirements Gathering\n*** Resource Allocation\n** Execution Phase\n*** Task Development\n*** Quality Assurance\n** Completion Phase\n*** Testing\n*** Deployment\n@endwbs").data
      = ("@startwbs\n* ".data ++ (projectName prompt).data) ++
        "\n** Planning Phase\n*** Requirements Gathering\n*** Resource Allocation\n** Execution Phase\n*** Task Development\n*** Quality Assurance\n** Completion Phase\n*** Testing\n*** Deployment\n@endwbs".data
      from by simp [String.data_append]]
    exact h1.trans (List.suffix_append _ _)

/-! ## C4: PlantUML URL encoding round trip -/

theorem pumlIndex_pumlChar : ∀ i, i < 64 → pumlIndex (pumlChar i) = i := by decide

theorem groupsToBytes_encode3 (b1 b2 b3 : Nat) (h1 : b1 < 256) (h2 : b2 < 256)
    (h3 : b3 < 256) (rest : List Char) :
    groupsToBytes (encode3bytes b1 b2 b3 ++ rest) = b1 :: b2 :: b3 :: groupsToBytes rest := by
  rw [encode3bytes]
  show groupsToBytes (_ :: _ :: _ :: _ :: rest) = _
  rw [groupsToBytes]
  rw [decode4]
  rw [pumlIndex_pumlChar _ (by omega), pumlIndex_pumlChar _ (by omega),
    pumlIndex_pumlChar _ (by omega), pumlIndex_pumlChar _ (by omega)]
  have e1 : b1 / 4 % 64 * 4 + (b1 % 4 * 16 + b2 / 16) % 64 / 16 = b1 := by omega
  have e2 : (b1 % 4 * 16 + b2 / 16) % 64 % 16 * 16 + (b2 % 16 * 4 + b3 / 64) % 64 / 4 = b2 := by
    omega
  have e3 : (b2 % 16 * 4 + b3 / 64) % 64 % 4 * 64 + b3 % 64 % 64 = b3 := by omega
  rw [e1, e2, e3]
  rfl

theorem groupsToBytes_encodeChunks :
    ∀ bs : List Nat, (∀ b ∈ bs, b < 256) →
      ∃ k, k ≤ 2 ∧ groupsToBytes (encodeChunks bs) = bs ++ List.replicate k 0 := by
  intro bs
  induction bs using encodeChunks.induct with
  | case1 =>
    intro _
    exact ⟨0, by omega, rfl⟩
  | case2 b1 =>
    intro h
    refine ⟨2, by omega, ?_⟩
    rw [encodeChunks]
    rw [show encode3bytes b1 0 0 = encode3bytes b1 0 0 ++ [] from (List.append_nil _).symm]
    rw [groupsToBytes_encode3 b1 0 0 (h b1 (by simp)) (by omega) (by omega) []]
    rfl
  | case3 b1 b2 =>
    intro h
    refine ⟨1, by omega, ?_⟩
    rw [encodeChunks]
    rw [show encode3bytes b1 b2 0 = encode3bytes b1 b2 0 ++ [] from (List.append_nil _).symm]
    rw [groupsToBytes_encode3 b1 b2 0 (h b1 (by simp)) (h b2 (by simp)) (by omega) []]
    rfl
  | case4 b1 b2 b3 rest ih =>
    intro h
    obtain ⟨k, hk, hg⟩ := ih (fun b hb => h b (by simp [hb]))
    refine ⟨k, hk, ?_⟩
    rw [encodeChunks]
    rw [groupsToBytes_encode3 b1 b2 b3 (h b1 (by simp)) (h b2 (by simp)) (h b3 (by simp))]
    rw [hg]
    rfl

theorem char_toNat_lt (c : Char) : c.toNat < 1114112 := by
  rcases c.valid with h | ⟨_, h2⟩
  · exact Nat.lt_trans h (by omega)
  · exact h2

theorem utf8EncodeChar_lt (c : Char) : ∀ b ∈ utf8EncodeChar c, b < 256 := by
  intro b hb
  have hv := char_toNat_lt c
  rw [utf8EncodeChar] at hb
  by_cases ha : c.toNat < 0x80
  · rw [if_pos ha] at hb
    simp only [List.mem_cons, List.not_mem_nil, or_false] at hb
    omega
  · rw [if_neg ha] at hb
    by_cases hb2 : c.toNat < 0x800
    · rw [if_pos hb2] at hb
      simp only [List.mem_cons, List.not_mem_nil, or_false] at hb
      rcases hb with rfl | rfl <;> omega
    · rw [if_neg hb2] at hb
      by_cases hc : c.toNat < 0x10000
      · rw [if_pos hc] at hb
        simp only [List.mem_cons, List.not_mem_nil, or_false] at hb
        rcases hb with rfl | rfl | rfl <;> omega
      · rw [if_neg hc] at hb
        simp only [List.mem_cons, List.not_mem_nil, or_false] at hb
        rcases hb with rfl | rfl | rfl | rfl <;> omega

theorem utf8Encode_lt (s : String) : ∀ b ∈ utf8Encode s, b < 256 := by
  intro b hb
  rw [utf8Encode] at hb
  simp only [List.mem_flatMap] at hb
  obtain ⟨c, _, hbc⟩ := hb
  exact utf8EncodeChar_lt c b hbc

theorem contByte_read (y : Nat) (r : List Nat) (h1 : 0x80 ≤ y) (h2 : y < 0xC0) :
    contByte (y :: r) = some (y - 0x80, r) := by
  rw [contByte, if_pos ⟨h1, h2⟩]

theorem utf8DecodeChar1_encodeChar (c : Char) (bs : List Nat) :
    utf8DecodeChar1 (utf8EncodeChar c ++ bs) = some (c, bs) := by
  have hv := char_toNat_lt c
  have hofnat : Char.ofNat c.toNat = c := Char.ofNat_toNat c
  rw [utf8EncodeChar]
  by_cases ha : c.toNat < 0x80
  · rw [if_pos ha]
    show utf8DecodeChar1 (c.toNat :: bs) = _
    rw [utf8DecodeChar1, if_pos ha, hofnat]
  · rw [if_neg ha]
    by_cases hb2 : c.toNat < 0x800
    · rw [if_pos hb2]
      show utf8DecodeChar1 (_ :: _ :: bs) = _
      rw [utf8DecodeChar1]
      rw [if_neg (by omega), if_neg (by omega), if_pos (by omega)]
      rw [contByte_read _ _ (by omega) (by omega)]
      have : (0xC0 + c.toNat / 64 - 0xC0) * 64 + (0x80 + c.toNat % 64 - 0x80) = c.toNat := by
        omega
      simp only []
      rw [this, hofnat]
    · rw [if_neg hb2]
      by_cases hc : c.toNat < 0x10000
      · rw [if_pos hc]
        show utf8DecodeChar1 (_ :: _ :: _ :: bs) = _
        rw [utf8DecodeChar1]
        rw [if_neg (by omega), if_neg (by omega), if_neg (by omega), if_pos (by omega)]
        rw [contByte_read _ _ (by omega) (by omega)]
        simp only []
        rw [contByte_read _ _ (by omega) (by omega)]
        have : (0xE0 + c.toNat / 4096 - 0xE0) * 4096 + (0x80 + c.toNat / 64 % 64 - 0x80) * 64 +
            (0x80 + c.toNat % 64 - 0x80) = c.toNat := by omega
        simp only []
        rw [this, hofnat]
      · rw [if_neg hc]
        show utf8DecodeChar1 (_ :: _ :: _ :: _ :: bs) = _
        rw [utf8DecodeChar1]
        rw [if_neg (by omega), if_neg (by omega), if_neg (by omega), if_neg (by omega)]
        rw [contByte_read _ _ (by omega) (by omega)]
        simp only []
        rw [contByte_read _ _ (by omega) (by omega)]
        simp only []
        rw [contByte_read _ _ (by omega) (by omega)]
        have : (0xF0 + c.toNat / 262144 - 0xF0) * 262144 +
            (0x80 + c.toNat / 4096 % 64 - 0x80) * 4096 +
            (0x80 + c.toNat / 64 % 64 - 0x80) * 64 + (0x80 + c.toNat % 64 - 0x80) = c.toNat := by
          omega
        simp only []
        rw [this, hofnat]

theorem utf8EncodeChar_length_pos (c : Char) : 1 ≤ (utf8EncodeChar c).length := by
  rw [utf8EncodeChar]
  split_ifs <;> simp

theorem flatMap_encodeChar_length (cs : List Char) :
    cs.length ≤ (cs.flatMap utf8EncodeChar).length := by
  induction cs with
  | nil => simp
  | cons c cs2 ih =>
    rw [List.flatMap_cons, List.length_append, List.length_cons]
    have := utf8EncodeChar_length_pos c
    omega

theorem utf8DecodeLoop_encode (cs : List Char) :
    ∀ fuel, cs.length ≤ fuel →
      utf8DecodeLoop fuel (cs.flatMap utf8EncodeChar) = some cs := by
  induction cs with
  | nil => intro fuel _; cases fuel <;> rfl
  | cons c cs2 ih =>
    intro fuel hfuel
    cases fuel with
    | zero => simp at hfuel
    | succ f =>
      rw [List.flatMap_cons]
      obtain ⟨b, tl, heq⟩ : ∃ b tl, utf8EncodeChar c ++ cs2.flatMap utf8EncodeChar = b :: tl := by
        cases henc : utf8EncodeChar c with
        | nil =>
          have hpos := utf8EncodeChar_length_pos c
          rw [henc] at hpos
          simp at hpos
        | cons x xs => exact ⟨x, xs ++ cs2.flatMap utf8EncodeChar, by simp⟩
      have hf2 : cs2.length ≤ f := by
        simp only [List.length_cons] at hfuel
        omega
      rw [heq, utf8DecodeLoop, ← heq, utf8DecodeChar1_encodeChar]
      simp only []
      rw [ih f hf2]
      rfl

theorem utf8Decode_utf8Encode (s : String) : utf8Decode (utf8Encode s) = some s.data := by
  rw [utf8Decode, utf8Encode]
  exact utf8DecodeLoop_encode s.data _ (flatMap_encodeChar_length s.data)

/-- C4: the PlantUML URL encoding is a bit-exact round trip.  `deflateRaw`
stands for `zlib.compress(...)[2:-4]` (the raw deflate stream: bytes in, bytes
out) and `rawInflate` for the remote decoder's inflation, which recovers the
compressed bytes and ignores the zero padding past the end of the stream; for
every such pair and every PlantUML source string, the reference decode
(4-symbol groups back to 3 bytes, inflate, UTF-8 decode) of
`_encode_plantuml`'s output reproduces the source text exactly. -/
theorem plantuml_encode_round_trip
    (deflateRaw rawInflate : List Nat → List Nat)
    (hinv : ∀ bs, (∀ b ∈ bs, b < 256) →
      ∀ k, rawInflate (deflateRaw bs ++ List.replicate k 0) = bs)
    (hbytes : ∀ bs, (∀ b ∈ bs, b < 256) → ∀ b ∈ deflateRaw bs, b < 256)
    (s : String) :
    refDecodePlantuml rawInflate (encodePlantuml deflateRaw s) = some s := by
  obtain ⟨k, _, hg⟩ := groupsToBytes_encodeChunks (deflateRaw (utf8Encode s))
    (hbytes _ (utf8Encode_lt s))
  rw [refDecodePlantuml, encodePlantuml, hg, hinv _ (utf8Encode_lt s) k]
  rw [utf8Decode_utf8Encode]
  rfl

theorem wInflate_escape (bs : List Nat) (junk : List Nat) :
    wInflate (bs.flatMap (fun b => [1, b]) ++ 2 :: junk) = bs := by
  induction bs with
  | nil => rfl
  | cons b rest ih =>
    simp only [List.flatMap_cons, List.cons_append, List.nil_append, List.append_assoc]
    rw [wInflate, ih]

theorem wDeflate_inverts :
    ∀ bs, (∀ b ∈ bs, b < 256) →
      ∀ k, wInflate (wDeflate bs ++ List.replicate k 0) = bs := by
  intro bs _ k
  rw [wDeflate, List.append_assoc]
  exact wInflate_escape bs _

theorem wDeflate_bytes :
    ∀ bs, (∀ b ∈ bs, b < 256) → ∀ b ∈ wDeflate bs, b < 256 := by
  intro bs h b hb
  rw [wDeflate] at hb
  rcases List.mem_append.mp hb with hf | h2
  · rcases List.mem_flatMap.mp hf with ⟨x, hx, hbx⟩
    simp only [List.mem_cons, List.not_mem_nil, or_false] at hbx
    rcases hbx with rfl | rfl
    · omega
    · exact h b hx
  · simp only [List.mem_cons, List.not_mem_nil, or_false] at h2
    subst h2
    omega

/-- Witness for C4: the abstract deflate/inflate pair instantiated with a
concrete invertible byte coder, at a concrete WBS source. -/
theorem plantuml_encode_round_trip_witness :
    refDecodePlantuml wInflate (encodePlantuml wDeflate "@startwbs\n* Root\n@endwbs")
      = some "@startwbs\n* Root\n@endwbs" :=
  plantuml_encode_round_trip wDeflate wInflate wDeflate_inverts wDeflate_bytes
    "@startwbs\n* Root\n@endwbs"

end Flowgen
